import Mathlib

/-!
Verification of the EduIA session/economy core (src/app/page.tsx).

The client-side state machine of the page component is shallowly embedded:
React `useState` cells become fields of `AppState`, the `sendMessage`
callback becomes a pure step function parameterised by the outcome of the
external generation call, and the nondeterministic bits (generated ids,
formatted timestamps) are supplied through a `GenEnv` record.  JavaScript
string primitives (`trim`, `toLowerCase`, `includes`, `substring`) are
modelled by character-list functions with the same semantics on the
relevant inputs.
-/

/-- Agent identifier constant (page.tsx line 24). -/
def AGENT_ID : String := "6998de3ee5ae4890f6e2bfa0"

/-- Fixed per-generation cost (page.tsx line 25). -/
def POINTS_PER_GENERATION : Int := 75

/-- Initial point balance (page.tsx line 26). -/
def INITIAL_POINTS : Int := 250

/-- Boolean test that `p` is a contiguous leading segment of `l`. -/
def hasPrefixChars : List Char → List Char → Bool
  | [], _ => true
  | _ :: _, [] => false
  | p :: ps, c :: cs => p == c && hasPrefixChars ps cs

/-- Boolean test that `pat` occurs contiguously inside `l`
(model of JavaScript `String.prototype.includes`). -/
def hasSubChars (pat : List Char) : List Char → Bool
  | [] => hasPrefixChars pat []
  | c :: cs => hasPrefixChars pat (c :: cs) || hasSubChars pat cs

/-- Model of JavaScript `s.toLowerCase()` (ASCII case folding suffices for
the keywords the page matches against). -/
def jsToLower (s : String) : String := String.mk (s.toList.map Char.toLower)

/-- Model of JavaScript `s.includes(pat)`. -/
def jsIncludes (s pat : String) : Bool := hasSubChars pat.toList s.toList

/-- Whitespace recognised by the trim model. -/
def isWsChar (c : Char) : Bool := c == ' ' || c == '\t' || c == '\n' || c == '\r'

/-- Model of JavaScript `s.trim()`: strip whitespace from both ends. -/
def jsTrim (s : String) : String :=
  String.mk (((s.toList.dropWhile isWsChar).reverse.dropWhile isWsChar).reverse)

/-- Model of the JavaScript `a || b` idiom on an optional string, where
`undefined` and the empty string are falsy (page.tsx lines 539, 558, 587). -/
def jsOrString (a : Option String) (b : String) : String :=
  match a with
  | some s => if s = "" then b else s
  | none => b

/-- Message role union `'user' | 'assistant'` (page.tsx line 31). -/
inductive Role where
  | user : Role
  | assistant : Role
deriving DecidableEq, Repr

/-- Artifact file descriptor `{ file_url: string }` (page.tsx line 34). -/
structure ArtifactFile where
  file_url : String
deriving DecidableEq, Repr

/-- ChatMessage record (page.tsx lines 29-35); `artifactFiles` is the
optional field, absent on user messages. -/
structure ChatMessage where
  id : String
  role : Role
  content : String
  timestamp : String
  artifactFiles : Option (List ArtifactFile) := none
deriving DecidableEq, Repr

/-- HistoryEntry record (page.tsx lines 37-47). -/
structure HistoryEntry where
  id : String
  topic : String
  level : String
  format : String
  pageCount : Int
  content : String
  date : String
  pointCost : Int
  messages : List ChatMessage
deriving DecidableEq, Repr

/-- The `useState` cells of the page component that the session/economy
core reads or writes (page.tsx lines 396-417). -/
structure AppState where
  points : Int
  messages : List ChatMessage
  inputValue : String
  isGenerating : Bool
  chatError : String
  chatSuccess : String
  history : List HistoryEntry
  showBuyModal : Bool
  userId : String
  sessionId : String
deriving DecidableEq, Repr

/-- Outcome of the awaited `callAIAgent` call as consumed by `sendMessage`:
on success the primary text field `result.response.result.response`, the
`extractText` fallback, and `module_outputs.artifact_files` when it is an
array; on logical failure the `error` and `response.message` fields; or the
call threw/rejected (page.tsx lines 533-592). -/
inductive CallOutcome where
  | success (responseText : Option String) (fallbackText : Option String)
      (artifacts : Option (List ArtifactFile)) : CallOutcome
  | failure (errMsg : Option String) (responseMessage : Option String) : CallOutcome
  | thrown : CallOutcome
deriving DecidableEq, Repr

/-- Nondeterministic inputs of one `sendMessage` run: the three generated
ids and the display-formatted timestamps and date. -/
structure GenEnv where
  userMsgId : String
  assistantMsgId : String
  entryId : String
  sendTimestamp : String
  recvTimestamp : String
  dateStr : String
deriving DecidableEq, Repr

/-- Arguments of the external call `callAIAgent(trimmed, AGENT_ID,
{user_id, session_id})` (page.tsx lines 533-536). -/
structure CallRequest where
  message : String
  agentId : String
  userId : String
  sessionId : String
deriving DecidableEq, Repr

/-- Text extraction on success:
`result?.response?.result?.response || extractText(result.response) || ''`
(page.tsx line 539). -/
def extractedResponseText (responseText fallbackText : Option String) : String :=
  jsOrString responseText (jsOrString fallbackText "")

/-- Level heuristic over the lower-cased topic (page.tsx lines 561-565). -/
def classifyLevel (lowerTopic : String) : String :=
  if jsIncludes lowerTopic "fundamental" || jsIncludes lowerTopic "basico" then "Fundamental"
  else if jsIncludes lowerTopic "medio" || jsIncludes lowerTopic "ensino medio" then "Medio"
  else if jsIncludes lowerTopic "tecnico" || jsIncludes lowerTopic "tecnologo" then "Tecnico"
  else "Faculdade"

/-- Format heuristic over the lower-cased topic (page.tsx lines 568-569). -/
def classifyFormat (lowerTopic : String) : String :=
  if jsIncludes lowerTopic "slide" || jsIncludes lowerTopic "apresentacao" ||
      jsIncludes lowerTopic "powerpoint" then "slides"
  else "documento"

/-- Pure classification of a topic text into (level, format). -/
def classify (topic : String) : String × String :=
  (classifyLevel (jsToLower topic), classifyFormat (jsToLower topic))

/-- Classification level exactly as the specification words it: contains
"fundamental" or "basico" gives Fundamental, else "medio" gives Medio,
else "tecnico" or "tecnologo" gives Tecnico, else Faculdade. -/
def specLevelOf (t : String) : String :=
  if jsIncludes (jsToLower t) "fundamental" || jsIncludes (jsToLower t) "basico" then
    "Fundamental"
  else if jsIncludes (jsToLower t) "medio" then "Medio"
  else if jsIncludes (jsToLower t) "tecnico" || jsIncludes (jsToLower t) "tecnologo" then
    "Tecnico"
  else "Faculdade"

/-- Classification format exactly as the specification words it: slides
iff the text contains "slide", "apresentacao" or "powerpoint". -/
def specFormatOf (t : String) : String :=
  if jsIncludes (jsToLower t) "slide" || jsIncludes (jsToLower t) "apresentacao" ||
      jsIncludes (jsToLower t) "powerpoint" then "slides"
  else "documento"

/-- Topic truncation (page.tsx line 574):
`topic.length > 80 ? topic.substring(0, 80) + '...' : topic`. -/
def truncateTopic (topic : String) : String :=
  if 80 < topic.length then String.mk (topic.toList.take 80) ++ "..." else topic

/-- First user message of a message list:
`messages.find(m => m.role === 'user')` (page.tsx line 557). -/
def firstUserMessage (msgs : List ChatMessage) : Option ChatMessage :=
  msgs.find? (fun m => decide (m.role = Role.user))

/-- Topic source: the first user message's content, falling back to the
current trimmed input (`firstUserMsg?.content || trimmed`, page.tsx 558). -/
def topicSource (msgs : List ChatMessage) (trimmed : String) : String :=
  jsOrString ((firstUserMessage msgs).map ChatMessage.content) trimmed

/-- The optimistically appended user message (page.tsx lines 521-526). -/
def mkUserMessage (env : GenEnv) (trimmed : String) : ChatMessage :=
  { id := env.userMsgId
    role := Role.user
    content := trimmed
    timestamp := env.sendTimestamp
    artifactFiles := none }

/-- The assistant message built on success (page.tsx lines 544-550). -/
def mkAssistantMessage (env : GenEnv) (text : String) (files : List ArtifactFile) : ChatMessage :=
  { id := env.assistantMsgId
    role := Role.assistant
    content := text
    timestamp := env.recvTimestamp
    artifactFiles := if 0 < files.length then some files else none }

/-- The history entry built on success (page.tsx lines 556-582); `msgs` is
the message list captured at dispatch time (before the user turn). -/
def mkHistoryEntry (env : GenEnv) (msgs : List ChatMessage) (trimmed text : String)
    (userMessage assistantMessage : ChatMessage) : HistoryEntry :=
  let topic := topicSource msgs trimmed
  { id := env.entryId
    topic := truncateTopic topic
    level := classifyLevel (jsToLower topic)
    format := classifyFormat (jsToLower topic)
    pageCount := 0
    content := text
    date := env.dateStr
    pointCost := POINTS_PER_GENERATION
    messages := msgs ++ [userMessage, assistantMessage] }

/-- One full run of the `sendMessage` callback (page.tsx lines 508-597),
given the outcome the awaited external call will produce.  Returns the
state after the attempt together with the request passed to `callAIAgent`
(`none` when the call is never invoked). -/
def sendMessage (s : AppState) (env : GenEnv) (outcome : CallOutcome) :
    AppState × Option CallRequest :=
  if jsTrim s.inputValue = "" ∨ s.isGenerating = true then (s, none)
  else if s.points < POINTS_PER_GENERATION then ({ s with showBuyModal := true }, none)
  else
    let trimmed := jsTrim s.inputValue
    let userMessage := mkUserMessage env trimmed
    let s1 := { s with
                chatError := ""
                chatSuccess := ""
                messages := s.messages ++ [userMessage]
                inputValue := ""
                isGenerating := true }
    let req : CallRequest :=
      { message := trimmed, agentId := AGENT_ID, userId := s.userId, sessionId := s.sessionId }
    match outcome with
    | CallOutcome.success responseText fallbackText artifacts =>
        let text := extractedResponseText responseText fallbackText
        let assistantMessage := mkAssistantMessage env text (artifacts.getD [])
        let entry := mkHistoryEntry env s.messages trimmed text userMessage assistantMessage
        ({ s1 with
            messages := s1.messages ++ [assistantMessage]
            points := max 0 (s1.points - POINTS_PER_GENERATION)
            history := entry :: s1.history
            chatSuccess := "Conteudo gerado com sucesso!"
            isGenerating := false }, some req)
    | CallOutcome.failure errMsg responseMessage =>
        ({ s1 with
            chatError := jsOrString errMsg
              (jsOrString responseMessage "Erro ao gerar conteudo. Tente novamente.")
            isGenerating := false }, some req)
    | CallOutcome.thrown =>
        ({ s1 with
            chatError := "Erro de conexao. Verifique sua internet e tente novamente."
            isGenerating := false }, some req)

/-- Boolean discriminator for the success constructor of `CallOutcome`. -/
def isSuccessOutcome : CallOutcome → Bool
  | CallOutcome.success _ _ _ => true
  | _ => false

/-- The three purchase plans offered by the buy modal (page.tsx 1108-1131). -/
inductive PurchasePlan where
  | basico : PurchasePlan
  | popular : PurchasePlan
  | premium : PurchasePlan
deriving DecidableEq, Repr

/-- Point amounts wired to the plan cards' `onBuy` handlers. -/
def planPoints : PurchasePlan → Int
  | PurchasePlan.basico => 1000
  | PurchasePlan.popular => 2500
  | PurchasePlan.premium => 4000

/-- `handleBuyPoints` (page.tsx lines 613-618): unconditional credit. -/
def handleBuyPoints (s : AppState) (amount : Int) : AppState :=
  { s with points := s.points + amount, showBuyModal := false }

/-- `startNewWork` (page.tsx lines 494-505): fresh session id, empty log. -/
def startNewWork (s : AppState) (newSessionId : String) : AppState :=
  { s with sessionId := newSessionId, messages := [], chatError := "", chatSuccess := "" }

/-- Typing into the input field (`setInputValue`, page.tsx line 870). -/
def setInput (s : AppState) (v : String) : AppState := { s with inputValue := v }

/-- The actions through which the core mutates `AppState`. -/
inductive AppAction where
  | typeInput (v : String) : AppAction
  | submit (env : GenEnv) (outcome : CallOutcome) : AppAction
  | buy (plan : PurchasePlan) : AppAction
  | newWork (newSessionId : String) : AppAction
deriving Repr

/-- Small-step semantics of the core over `Action`. -/
def step (s : AppState) : AppAction → AppState
  | AppAction.typeInput v => setInput s v
  | AppAction.submit env oc => (sendMessage s env oc).1
  | AppAction.buy plan => handleBuyPoints s (planPoints plan)
  | AppAction.newWork sid => startNewWork s sid

/-- Initial state of the component before any effect runs: `points` starts
at `INITIAL_POINTS`, all lists empty (page.tsx lines 396-417). -/
def initState (uid sid : String) : AppState :=
  { points := INITIAL_POINTS
    messages := []
    inputValue := ""
    isGenerating := false
    chatError := ""
    chatSuccess := ""
    history := []
    showBuyModal := false
    userId := uid
    sessionId := sid }

/-- History filter (page.tsx lines 637-642): conjunction of a
case-insensitive topic search (empty search matches all), an exact level
match against the sentinel `"all"`, and an exact format match. -/
def filteredHistory (history : List HistoryEntry)
    (searchText levelFilter formatFilter : String) : List HistoryEntry :=
  history.filter (fun entry =>
    (searchText == "" || jsIncludes (jsToLower entry.topic) (jsToLower searchText)) &&
    (levelFilter == "all" || entry.level == levelFilter) &&
    (formatFilter == "all" || entry.format == formatFilter))

/-- Decimal digit to character. -/
def digitChar (d : Nat) : Char := Char.ofNat (48 + d)

/-- Character to decimal digit value. -/
def charDigitVal (c : Char) : Nat := c.toNat - 48

/-- Model of `points.toString()` for the non-negative balances the ledger
invariant guarantees (page.tsx line 466): big-endian decimal digits. -/
def pointsToChars (p : Int) : List Char :=
  if p.toNat = 0 then ['0'] else ((Nat.digits 10 p.toNat).map digitChar).reverse

/-- Model of `parseInt(storedPoints, 10)` on a digit string
(page.tsx line 437). -/
def parsePointsChars (cs : List Char) : Int :=
  Int.ofNat (Nat.ofDigits 10 ((cs.map charDigitVal).reverse))

/-- Structural JSON values; the serialized text layer of
`JSON.stringify`/`JSON.parse` is modelled by this tree directly. -/
inductive Json where
  | null : Json
  | str (s : String) : Json
  | num (n : Int) : Json
  | arr (items : List Json) : Json
  | obj (fields : List (String × Json)) : Json

/-- Role serialization: the role union is stored as its string tag. -/
def roleToJson : Role → Json
  | Role.user => Json.str "user"
  | Role.assistant => Json.str "assistant"

/-- Artifact file serialization. -/
def artifactToJson (a : ArtifactFile) : Json :=
  Json.obj [("file_url", Json.str a.file_url)]

/-- ChatMessage serialization; `JSON.stringify` omits the `artifactFiles`
key when the field is `undefined`. -/
def messageToJson (m : ChatMessage) : Json :=
  Json.obj ([("id", Json.str m.id), ("role", roleToJson m.role),
             ("content", Json.str m.content), ("timestamp", Json.str m.timestamp)] ++
            (match m.artifactFiles with
             | some files => [("artifactFiles", Json.arr (files.map artifactToJson))]
             | none => []))

/-- HistoryEntry serialization. -/
def entryToJson (e : HistoryEntry) : Json :=
  Json.obj [("id", Json.str e.id), ("topic", Json.str e.topic),
            ("level", Json.str e.level), ("format", Json.str e.format),
            ("pageCount", Json.num e.pageCount), ("content", Json.str e.content),
            ("date", Json.str e.date), ("pointCost", Json.num e.pointCost),
            ("messages", Json.arr (e.messages.map messageToJson))]

/-- Model of `JSON.stringify(history)` (page.tsx line 473). -/
def historyToJson (h : List HistoryEntry) : Json := Json.arr (h.map entryToJson)

/-- Field lookup in a JSON object. -/
def jsonLookup (fields : List (String × Json)) (key : String) : Option Json :=
  (fields.find? (fun kv => kv.1 == key)).map Prod.snd

/-- Read a JSON string value. -/
def jsonStr : Json → Option String
  | Json.str s => some s
  | _ => none

/-- Read a JSON number value. -/
def jsonNum : Json → Option Int
  | Json.num n => some n
  | _ => none

/-- Decode a role tag. -/
def roleFromJson : Json → Option Role
  | Json.str "user" => some Role.user
  | Json.str "assistant" => some Role.assistant
  | _ => none

/-- Decode an artifact file descriptor. -/
def artifactFromJson : Json → Option ArtifactFile
  | Json.obj fields => ((jsonLookup fields "file_url").bind jsonStr).map ArtifactFile.mk
  | _ => none

/-- Decode a chat message. -/
def messageFromJson : Json → Option ChatMessage
  | Json.obj fields => do
      let id ← (jsonLookup fields "id").bind jsonStr
      let role ← (jsonLookup fields "role").bind roleFromJson
      let content ← (jsonLookup fields "content").bind jsonStr
      let timestamp ← (jsonLookup fields "timestamp").bind jsonStr
      let files ← match jsonLookup fields "artifactFiles" with
        | none => some none
        | some (Json.arr items) => (items.mapM artifactFromJson).map some
        | some _ => none
      some { id := id
             role := role
             content := content
             timestamp := timestamp
             artifactFiles := files }
  | _ => none

/-- Decode a history entry. -/
def entryFromJson : Json → Option HistoryEntry
  | Json.obj fields => do
      let id ← (jsonLookup fields "id").bind jsonStr
      let topic ← (jsonLookup fields "topic").bind jsonStr
      let level ← (jsonLookup fields "level").bind jsonStr
      let format ← (jsonLookup fields "format").bind jsonStr
      let pageCount ← (jsonLookup fields "pageCount").bind jsonNum
      let content ← (jsonLookup fields "content").bind jsonStr
      let date ← (jsonLookup fields "date").bind jsonStr
      let pointCost ← (jsonLookup fields "pointCost").bind jsonNum
      let msgs ← match jsonLookup fields "messages" with
        | some (Json.arr items) => items.mapM messageFromJson
        | _ => none
      some { id := id
             topic := topic
             level := level
             format := format
             pageCount := pageCount
             content := content
             date := date
             pointCost := pointCost
             messages := msgs }
  | _ => none

/-- Model of `JSON.parse(storedHistory)` followed by the `Array.isArray`
check (page.tsx lines 440-444). -/
def historyFromJson : Json → Option (List HistoryEntry)
  | Json.arr items => items.mapM entryFromJson
  | _ => none

/-- The durable key/value store behind the Persistence Adapter: the four
`eduia_*` localStorage keys (page.tsx lines 435-456). -/
structure Store where
  points : Option (List Char)
  history : Option Json
  userId : Option String
  sessionId : Option String

/-- The persist effects (page.tsx lines 464-475) together with the
identity writes: balance as a decimal string, history as serialized
structured data, the two ids verbatim. -/
def persistState (s : AppState) : Store :=
  { points := some (pointsToChars s.points)
    history := some (historyToJson s.history)
    userId := some s.userId
    sessionId := some s.sessionId }

/-- The startup rehydration effect (page.tsx lines 433-461): parse the
stored balance if present, adopt the stored history if it parses to an
array, reuse each stored id unless it is falsy — absent or the empty
string (`if (!storedUserId)`, `if (!storedSessionId)`) — in which case a
fresh id is generated. -/
def loadState (store : Store) (base : AppState) (freshUserId freshSessionId : String) :
    AppState :=
  { base with
    points := match store.points with
              | some cs => parsePointsChars cs
              | none => base.points
    history := match store.history with
               | some j =>
                   match historyFromJson j with
                   | some entries => entries
                   | none => base.history
               | none => base.history
    userId := match store.userId with
              | some u => if u = "" then freshUserId else u
              | none => freshUserId
    sessionId := match store.sessionId with
                 | some sid => if sid = "" then freshSessionId else sid
                 | none => freshSessionId }

/-- One successful generation round: the input typed by the user plus the
nondeterministic ids/timestamps and the successful call's payload. -/
structure SuccessRound where
  input : String
  env : GenEnv
  responseText : Option String
  fallbackText : Option String
  artifacts : Option (List ArtifactFile)

/-- The outcome carried by a successful round. -/
def roundOutcome (r : SuccessRound) : CallOutcome :=
  CallOutcome.success r.responseText r.fallbackText r.artifacts

/-- Type the round's input, then run `sendMessage` to completion. -/
def runRound (s : AppState) (r : SuccessRound) : AppState :=
  (sendMessage (setInput s r.input) r.env (roundOutcome r)).1

/-- The history entry a successful round creates from state `s`. -/
def roundEntry (s : AppState) (r : SuccessRound) : HistoryEntry :=
  let trimmed := jsTrim r.input
  let text := extractedResponseText r.responseText r.fallbackText
  mkHistoryEntry r.env s.messages trimmed text (mkUserMessage r.env trimmed)
    (mkAssistantMessage r.env text (r.artifacts.getD []))

/-- Run a sequence of successful rounds; also return the created entries in
chronological order. -/
def runRounds (s : AppState) : List SuccessRound → AppState × List HistoryEntry
  | [] => (s, [])
  | r :: rest =>
      let e := roundEntry s r
      let out := runRounds (runRound s r) rest
      (out.1, e :: out.2)

/-- Fixture: a concrete environment for witness instantiations. -/
def testEnv : GenEnv :=
  { userMsgId := "u1"
    assistantMsgId := "a1"
    entryId := "e1"
    sendTimestamp := "10:00"
    recvTimestamp := "10:01"
    dateStr := "01/01/2026" }

/-- Fixture: a second concrete environment. -/
def testEnv2 : GenEnv :=
  { userMsgId := "u2"
    assistantMsgId := "a2"
    entryId := "e2"
    sendTimestamp := "10:05"
    recvTimestamp := "10:06"
    dateStr := "01/01/2026" }

/-- Fixture: a state about to submit a technical topic. -/
def testState : AppState :=
  { initState "uid" "sid" with inputValue := "Trabalho tecnico sobre redes" }

/-- Fixture: a state with a low balance about to submit. -/
def poorState : AppState :=
  { initState "uid" "sid" with inputValue := "Trabalho sobre historia", points := 10 }

/-- Fixture: a state whose input trims to empty and whose balance is low. -/
def emptyInputState : AppState :=
  { initState "uid" "sid" with inputValue := "   ", points := 10 }

/-- Fixture: a state with a generation already in flight. -/
def busyState : AppState :=
  { initState "uid" "sid" with inputValue := "Outro tema", isGenerating := true }

/-- Fixture: build a concrete archive entry for filter witnesses. -/
def mkTestEntry (eid etopic elevel eformat econtent edate : String) : HistoryEntry :=
  { id := eid
    topic := etopic
    level := elevel
    format := eformat
    pageCount := 0
    content := econtent
    date := edate
    pointCost := 75
    messages := [] }

/-- Fixture: three concrete archive entries. -/
def testArchive : List HistoryEntry :=
  [mkTestEntry "h1" "Fotossintese e ciclo do carbono" "Medio" "slides" "c1" "d1",
   mkTestEntry "h2" "Redes de computadores" "Tecnico" "documento" "c2" "d2",
   mkTestEntry "h3" "Machado de Assis" "Medio" "documento" "c3" "d3"]

/-- Characterization of the prefix test. -/
theorem hasPrefixChars_iff (p : List Char) : ∀ l, hasPrefixChars p l = true ↔ ∃ t, l = p ++ t := by
  induction p with
  | nil => intro l; simp [hasPrefixChars]
  | cons x xs ih =>
    intro l
    cases l with
    | nil => simp [hasPrefixChars]
    | cons c cs =>
      simp [hasPrefixChars, ih]
      exact fun _ _ => eq_comm

/-- Characterization of the substring test. -/
theorem hasSubChars_iff (p : List Char) : ∀ l, hasSubChars p l = true ↔ ∃ a b, l = a ++ (p ++ b) := by
  intro l
  induction l with
  | nil =>
    cases p with
    | nil => simp [hasSubChars, hasPrefixChars]
    | cons x xs => simp [hasSubChars, hasPrefixChars]
  | cons c cs ih =>
    rw [hasSubChars]
    simp only [Bool.or_eq_true, hasPrefixChars_iff, ih]
    constructor
    · rintro (⟨t, ht⟩ | ⟨a, b, hab⟩)
      · exact ⟨[], t, by simpa using ht⟩
      · exact ⟨c :: a, b, by simp [hab]⟩
    · rintro ⟨a, b, hab⟩
      cases a with
      | nil => exact Or.inl ⟨b, by simpa using hab⟩
      | cons a0 asrest =>
        simp only [List.cons_append, List.cons.injEq] at hab
        exact Or.inr ⟨asrest, b, hab.2⟩

/-- A text containing "ensino medio" also contains "medio". -/
theorem jsIncludes_ensino_medio (t : String) (h : jsIncludes t "ensino medio" = true) :
    jsIncludes t "medio" = true := by
  rw [jsIncludes, hasSubChars_iff] at h ⊢
  obtain ⟨a, b, hab⟩ := h
  refine ⟨a ++ "ensino ".toList, b, ?_⟩
  rw [hab]
  simp

/-- In the level heuristic the extra "ensino medio" disjunct is redundant. -/
theorem medio_disjunct_redundant (lt : String) :
    (jsIncludes lt "medio" || jsIncludes lt "ensino medio") = jsIncludes lt "medio" := by
  cases hmed : jsIncludes lt "medio" with
  | true => simp
  | false =>
    cases hem : jsIncludes lt "ensino medio" with
    | true => exact absurd (jsIncludes_ensino_medio lt hem) (by simp [hmed])
    | false => simp

/-- C6: classification is the deterministic case-insensitive substring
test the specification describes — the code's extra "ensino medio"
disjunct is subsumed by the "medio" test — and it maps the two reference
topics to (Tecnico, documento) and (Fundamental, slides). -/
theorem classify_level_format_spec :
    (∀ t : String, classify t = (specLevelOf t, specFormatOf t)) ∧
    classify "Trabalho tecnico sobre redes" = ("Tecnico", "documento") ∧
    classify "Apresentacao de slides sobre fotossintese para fundamental" =
      ("Fundamental", "slides") := by
  refine ⟨?_, by decide, by decide⟩
  intro t
  rw [classify, specLevelOf, specFormatOf, classifyLevel, classifyFormat,
    medio_disjunct_redundant]

/-- C8: the history filter keeps exactly the entries passing the three
conjoined predicates, preserves archive order, and with arguments
("", "Medio", "all") returns exactly the Medio entries. -/
theorem filteredHistory_spec :
    (∀ (h : List HistoryEntry) (s lf ff : String) (e : HistoryEntry),
        e ∈ filteredHistory h s lf ff ↔
          e ∈ h ∧ (s = "" ∨ jsIncludes (jsToLower e.topic) (jsToLower s) = true) ∧
            (lf = "all" ∨ e.level = lf) ∧ (ff = "all" ∨ e.format = ff)) ∧
    (∀ (h : List HistoryEntry) (s lf ff : String),
        List.Sublist (filteredHistory h s lf ff) h) ∧
    (∀ h : List HistoryEntry,
        filteredHistory h "" "Medio" "all" = h.filter (fun e => e.level == "Medio")) ∧
    filteredHistory testArchive "" "Medio" "all" =
      [mkTestEntry "h1" "Fotossintese e ciclo do carbono" "Medio" "slides" "c1" "d1",
       mkTestEntry "h3" "Machado de Assis" "Medio" "documento" "c3" "d3"] := by
  refine ⟨?_, ?_, ?_, by decide⟩
  · intro h s lf ff e
    rw [filteredHistory, List.mem_filter]
    simp [Bool.or_eq_true, beq_iff_eq, and_assoc]
  · intro h s lf ff
    exact List.filter_sublist h
  · intro h
    rw [filteredHistory]
    congr 1
    funext e
    simp

/-- C4: a second submit while a generation is in flight is a complete
no-op — the state is returned unchanged and no external call is issued. -/
theorem sendMessage_single_flight (s : AppState) (env : GenEnv) (oc : CallOutcome)
    (h : s.isGenerating = true) : sendMessage s env oc = (s, none) := by
  rw [sendMessage, if_pos (Or.inr h)]

/-- Witness for C4 at a concrete in-flight state. -/
theorem sendMessage_single_flight_witness :
    busyState.isGenerating = true ∧ sendMessage busyState testEnv CallOutcome.thrown = (busyState, none) :=
  ⟨rfl, sendMessage_single_flight busyState testEnv CallOutcome.thrown rfl⟩

/-- C10: when the input trims to the empty string, submit is a complete
no-op regardless of the balance: nothing changes (in particular the buy
modal is not raised) and the external call is never invoked. -/
theorem sendMessage_empty_input_noop (s : AppState) (env : GenEnv) (oc : CallOutcome)
    (h : jsTrim s.inputValue = "") :
    sendMessage s env oc = (s, none) ∧
    (sendMessage s env oc).1.showBuyModal = s.showBuyModal := by
  have heq : sendMessage s env oc = (s, none) := by
    rw [sendMessage, if_pos (Or.inl h)]
  exact ⟨heq, by rw [heq]⟩

/-- Witness for C10: a whitespace-only input with a balance below 75 leaves
the state untouched and does not raise the top-up modal. -/
theorem sendMessage_empty_input_noop_witness :
    jsTrim emptyInputState.inputValue = "" ∧ emptyInputState.points < POINTS_PER_GENERATION ∧
    sendMessage emptyInputState testEnv CallOutcome.thrown = (emptyInputState, none) ∧
    (sendMessage emptyInputState testEnv CallOutcome.thrown).1.showBuyModal = false :=
  ⟨by decide, by decide,
   (sendMessage_empty_input_noop emptyInputState testEnv CallOutcome.thrown (by decide)).1,
   (sendMessage_empty_input_noop emptyInputState testEnv CallOutcome.thrown (by decide)).2⟩

/-- C3: a submit with non-empty trimmed input, no generation in flight and
balance below the cost appends no user message, leaves balance and archive
unchanged, never invokes the external call, and raises the top-up signal. -/
theorem sendMessage_insufficient_balance_gate (s : AppState) (env : GenEnv) (oc : CallOutcome)
    (h1 : jsTrim s.inputValue ≠ "") (h2 : s.isGenerating = false)
    (h3 : s.points < POINTS_PER_GENERATION) :
    (sendMessage s env oc).1.messages = s.messages ∧
    (sendMessage s env oc).2 = none ∧
    (sendMessage s env oc).1.points = s.points ∧
    (sendMessage s env oc).1.history = s.history ∧
    (sendMessage s env oc).1.showBuyModal = true := by
  have hc : ¬(jsTrim s.inputValue = "" ∨ s.isGenerating = true) := by
    rintro (h | h)
    · exact h1 h
    · rw [h2] at h; cases h
  have heq : sendMessage s env oc = ({ s with showBuyModal := true }, none) := by
    rw [sendMessage, if_neg hc, if_pos h3]
  rw [heq]
  exact ⟨rfl, rfl, rfl, rfl, rfl⟩

/-- Witness for C3 at a concrete low-balance state. -/
theorem sendMessage_insufficient_balance_gate_witness :
    jsTrim poorState.inputValue ≠ "" ∧ poorState.isGenerating = false ∧
    poorState.points < POINTS_PER_GENERATION ∧
    ((sendMessage poorState testEnv CallOutcome.thrown).1.messages = poorState.messages ∧
     (sendMessage poorState testEnv CallOutcome.thrown).2 = none ∧
     (sendMessage poorState testEnv CallOutcome.thrown).1.points = poorState.points ∧
     (sendMessage poorState testEnv CallOutcome.thrown).1.history = poorState.history ∧
     (sendMessage poorState testEnv CallOutcome.thrown).1.showBuyModal = true) :=
  ⟨by decide, rfl, by decide,
   sendMessage_insufficient_balance_gate poorState testEnv CallOutcome.thrown
     (by decide) rfl (by decide)⟩

/-- Shape of a gate-passing `sendMessage` run whose call succeeds: the
user and assistant turns are appended, the balance is debited with a floor
at zero, and the new history entry is prepended. -/
theorem sendMessage_success_eq (s : AppState) (env : GenEnv) (rt ft : Option String)
    (af : Option (List ArtifactFile))
    (h1 : jsTrim s.inputValue ≠ "") (h2 : s.isGenerating = false)
    (h3 : POINTS_PER_GENERATION ≤ s.points) :
    sendMessage s env (CallOutcome.success rt ft af) =
      ({ s with
          chatError := ""
          chatSuccess := "Conteudo gerado com sucesso!"
          messages := (s.messages ++ [mkUserMessage env (jsTrim s.inputValue)]) ++
            [mkAssistantMessage env (extractedResponseText rt ft) (af.getD [])]
          inputValue := ""
          isGenerating := false
          points := max 0 (s.points - POINTS_PER_GENERATION)
          history := mkHistoryEntry env s.messages (jsTrim s.inputValue)
            (extractedResponseText rt ft) (mkUserMessage env (jsTrim s.inputValue))
            (mkAssistantMessage env (extractedResponseText rt ft) (af.getD [])) :: s.history },
       some { message := jsTrim s.inputValue, agentId := AGENT_ID, userId := s.userId,
              sessionId := s.sessionId }) := by
  have hc : ¬(jsTrim s.inputValue = "" ∨ s.isGenerating = true) := by
    rintro (h | h)
    · exact h1 h
    · rw [h2] at h; cases h
  have hp : ¬(s.points < POINTS_PER_GENERATION) := not_lt.mpr h3
  rw [sendMessage, if_neg hc, if_neg hp]

/-- Shape of a gate-passing `sendMessage` run whose call reports a logical
failure: only the user turn and the error text change. -/
theorem sendMessage_failure_eq (s : AppState) (env : GenEnv) (em rm : Option String)
    (h1 : jsTrim s.inputValue ≠ "") (h2 : s.isGenerating = false)
    (h3 : POINTS_PER_GENERATION ≤ s.points) :
    sendMessage s env (CallOutcome.failure em rm) =
      ({ s with
          chatError := jsOrString em
            (jsOrString rm "Erro ao gerar conteudo. Tente novamente.")
          chatSuccess := ""
          messages := s.messages ++ [mkUserMessage env (jsTrim s.inputValue)]
          inputValue := ""
          isGenerating := false },
       some { message := jsTrim s.inputValue, agentId := AGENT_ID, userId := s.userId,
              sessionId := s.sessionId }) := by
  have hc : ¬(jsTrim s.inputValue = "" ∨ s.isGenerating = true) := by
    rintro (h | h)
    · exact h1 h
    · rw [h2] at h; cases h
  have hp : ¬(s.points < POINTS_PER_GENERATION) := not_lt.mpr h3
  rw [sendMessage, if_neg hc, if_neg hp]

/-- Shape of a gate-passing `sendMessage` run whose call throws: only the
user turn and the connectivity error text change. -/
theorem sendMessage_thrown_eq (s : AppState) (env : GenEnv)
    (h1 : jsTrim s.inputValue ≠ "") (h2 : s.isGenerating = false)
    (h3 : POINTS_PER_GENERATION ≤ s.points) :
    sendMessage s env CallOutcome.thrown =
      ({ s with
          chatError := "Erro de conexao. Verifique sua internet e tente novamente."
          chatSuccess := ""
          messages := s.messages ++ [mkUserMessage env (jsTrim s.inputValue)]
          inputValue := ""
          isGenerating := false },
       some { message := jsTrim s.inputValue, agentId := AGENT_ID, userId := s.userId,
              sessionId := s.sessionId }) := by
  have hc : ¬(jsTrim s.inputValue = "" ∨ s.isGenerating = true) := by
    rintro (h | h)
    · exact h1 h
    · rw [h2] at h; cases h
  have hp : ¬(s.points < POINTS_PER_GENERATION) := not_lt.mpr h3
  rw [sendMessage, if_neg hc, if_neg hp]

/-- C2: on any failed attempt — logical failure or thrown call — the
balance is unchanged, no history entry is created, the optimistic user
message stays in the session, and the state returns to idle. -/
theorem sendMessage_failure_no_charge (s : AppState) (env : GenEnv) (oc : CallOutcome)
    (hf : isSuccessOutcome oc = false)
    (h1 : jsTrim s.inputValue ≠ "") (h2 : s.isGenerating = false)
    (h3 : POINTS_PER_GENERATION ≤ s.points) :
    (sendMessage s env oc).1.points = s.points ∧
    (sendMessage s env oc).1.history = s.history ∧
    (sendMessage s env oc).1.messages =
      s.messages ++ [mkUserMessage env (jsTrim s.inputValue)] ∧
    (sendMessage s env oc).1.isGenerating = false := by
  cases oc with
  | success rt ft af => simp [isSuccessOutcome] at hf
  | failure em rm =>
    rw [sendMessage_failure_eq s env em rm h1 h2 h3]
    exact ⟨rfl, rfl, rfl, rfl⟩
  | thrown =>
    rw [sendMessage_thrown_eq s env h1 h2 h3]
    exact ⟨rfl, rfl, rfl, rfl⟩

/-- Witness for C2 at a concrete state and a thrown call. -/
theorem sendMessage_failure_no_charge_witness :
    isSuccessOutcome CallOutcome.thrown = false ∧
    jsTrim testState.inputValue ≠ "" ∧ testState.isGenerating = false ∧
    POINTS_PER_GENERATION ≤ testState.points ∧
    ((sendMessage testState testEnv CallOutcome.thrown).1.points = testState.points ∧
     (sendMessage testState testEnv CallOutcome.thrown).1.history = testState.history ∧
     (sendMessage testState testEnv CallOutcome.thrown).1.messages =
       testState.messages ++ [mkUserMessage testEnv (jsTrim testState.inputValue)] ∧
     (sendMessage testState testEnv CallOutcome.thrown).1.isGenerating = false) :=
  ⟨rfl, by decide, rfl, by decide,
   sendMessage_failure_no_charge testState testEnv CallOutcome.thrown rfl
     (by decide) rfl (by decide)⟩

/-- Facts about one successful round: entry prepended, idle again, exactly
the fixed cost debited (the floor at zero is inert because the gate
guarantees the balance covers the cost). -/
theorem runRound_facts (s : AppState) (r : SuccessRound)
    (h1 : jsTrim r.input ≠ "") (h2 : s.isGenerating = false)
    (h3 : POINTS_PER_GENERATION ≤ s.points) :
    (runRound s r).history = roundEntry s r :: s.history ∧
    (runRound s r).isGenerating = false ∧
    (runRound s r).points = s.points - POINTS_PER_GENERATION := by
  have hstep := sendMessage_success_eq (setInput s r.input) r.env r.responseText
    r.fallbackText r.artifacts h1 h2 h3
  refine ⟨?_, ?_, ?_⟩
  · rw [runRound, roundOutcome, hstep]
    rfl
  · rw [runRound, roundOutcome, hstep]
  · rw [runRound, roundOutcome, hstep]
    show max 0 (s.points - POINTS_PER_GENERATION) = s.points - POINTS_PER_GENERATION
    rw [max_eq_right]
    simp only [POINTS_PER_GENERATION] at h3 ⊢
    omega

/-- Invariants of a run of successful rounds: the final archive is the
created entries, newest first, in front of the initial archive; the state
is idle; and the balance dropped by the cost times the round count. -/
theorem runRounds_invariants (rounds : List SuccessRound) : ∀ s : AppState,
    s.isGenerating = false → (∀ r ∈ rounds, jsTrim r.input ≠ "") →
    POINTS_PER_GENERATION * rounds.length ≤ s.points →
    (runRounds s rounds).1.history = (runRounds s rounds).2.reverse ++ s.history ∧
    (runRounds s rounds).1.isGenerating = false ∧
    (runRounds s rounds).1.points = s.points - POINTS_PER_GENERATION * rounds.length := by
  induction rounds with
  | nil =>
    intro s h2 _ _
    exact ⟨by simp [runRounds], h2, by simp [runRounds]⟩
  | cons r rest ih =>
    intro s h2 hin hpts
    have hrin : jsTrim r.input ≠ "" := hin r (List.mem_cons_self r rest)
    have h75 : POINTS_PER_GENERATION ≤ s.points := by
      simp only [POINTS_PER_GENERATION, List.length_cons] at hpts ⊢
      omega
    obtain ⟨hhist, hgen, hpoints⟩ := runRound_facts s r hrin h2 h75
    have hpts' : POINTS_PER_GENERATION * rest.length ≤ (runRound s r).points := by
      rw [hpoints]
      simp only [POINTS_PER_GENERATION, List.length_cons] at hpts ⊢
      omega
    obtain ⟨ih1, ih2, ih3⟩ :=
      ih (runRound s r) hgen (fun q hq => hin q (List.mem_cons_of_mem r hq)) hpts'
    refine ⟨?_, ?_, ?_⟩
    · show (runRounds (runRound s r) rest).1.history =
        (roundEntry s r :: (runRounds (runRound s r) rest).2).reverse ++ s.history
      rw [ih1, hhist]
      simp
    · exact ih2
    · show (runRounds (runRound s r) rest).1.points =
        s.points - POINTS_PER_GENERATION * (r :: rest).length
      rw [ih3, hpoints]
      simp only [POINTS_PER_GENERATION, List.length_cons]
      push_cast
      ring

/-- C1: a gate-passing submit whose call succeeds leaves the balance at
max(0, balance - 75), prepends exactly one history entry carrying
pointCost 75, and across any run of N successful generations the archive
is the created entries newest-first (index 0 most recent, N-1 oldest)
in front of the prior archive. -/
theorem sendMessage_success_charges_and_prepends (s : AppState) (env : GenEnv)
    (rt ft : Option String) (af : Option (List ArtifactFile))
    (h1 : jsTrim s.inputValue ≠ "") (h2 : s.isGenerating = false)
    (h3 : POINTS_PER_GENERATION ≤ s.points) :
    (sendMessage s env (CallOutcome.success rt ft af)).1.points =
      max 0 (s.points - POINTS_PER_GENERATION) ∧
    (sendMessage s env (CallOutcome.success rt ft af)).1.history =
      mkHistoryEntry env s.messages (jsTrim s.inputValue) (extractedResponseText rt ft)
        (mkUserMessage env (jsTrim s.inputValue))
        (mkAssistantMessage env (extractedResponseText rt ft) (af.getD [])) :: s.history ∧
    (mkHistoryEntry env s.messages (jsTrim s.inputValue) (extractedResponseText rt ft)
        (mkUserMessage env (jsTrim s.inputValue))
        (mkAssistantMessage env (extractedResponseText rt ft) (af.getD []))).pointCost =
      POINTS_PER_GENERATION ∧
    (∀ rounds : List SuccessRound, (∀ r ∈ rounds, jsTrim r.input ≠ "") →
      POINTS_PER_GENERATION * rounds.length ≤ s.points →
      (runRounds s rounds).1.history = (runRounds s rounds).2.reverse ++ s.history) := by
  have hstep := sendMessage_success_eq s env rt ft af h1 h2 h3
  refine ⟨by rw [hstep], by rw [hstep], rfl, ?_⟩
  intro rounds hin hpts
  exact (runRounds_invariants rounds s h2 hin hpts).1

/-- Witness for C1 at a concrete state and successful outcome. -/
theorem sendMessage_success_charges_and_prepends_witness :
    jsTrim testState.inputValue ≠ "" ∧ testState.isGenerating = false ∧
    POINTS_PER_GENERATION ≤ testState.points ∧
    ((sendMessage testState testEnv
        (CallOutcome.success (some "conteudo gerado") none none)).1.points =
      max 0 (testState.points - POINTS_PER_GENERATION) ∧
    (sendMessage testState testEnv
        (CallOutcome.success (some "conteudo gerado") none none)).1.history =
      mkHistoryEntry testEnv testState.messages (jsTrim testState.inputValue)
        (extractedResponseText (some "conteudo gerado") none)
        (mkUserMessage testEnv (jsTrim testState.inputValue))
        (mkAssistantMessage testEnv (extractedResponseText (some "conteudo gerado") none)
          ((none : Option (List ArtifactFile)).getD [])) :: testState.history ∧
    (mkHistoryEntry testEnv testState.messages (jsTrim testState.inputValue)
        (extractedResponseText (some "conteudo gerado") none)
        (mkUserMessage testEnv (jsTrim testState.inputValue))
        (mkAssistantMessage testEnv (extractedResponseText (some "conteudo gerado") none)
          ((none : Option (List ArtifactFile)).getD []))).pointCost =
      POINTS_PER_GENERATION ∧
    (∀ rounds : List SuccessRound, (∀ r ∈ rounds, jsTrim r.input ≠ "") →
      POINTS_PER_GENERATION * rounds.length ≤ testState.points →
      (runRounds testState rounds).1.history =
        (runRounds testState rounds).2.reverse ++ testState.history)) :=
  ⟨by decide, rfl, by decide,
   sendMessage_success_charges_and_prepends testState testEnv (some "conteudo gerado")
     none none (by decide) rfl (by decide)⟩

/-- A submit never drives the balance negative: the only debit is floored
at zero and every other path leaves the balance untouched. -/
theorem sendMessage_points_nonneg (s : AppState) (env : GenEnv) (oc : CallOutcome)
    (h : 0 ≤ s.points) : 0 ≤ (sendMessage s env oc).1.points := by
  by_cases hc : jsTrim s.inputValue = "" ∨ s.isGenerating = true
  · rw [sendMessage, if_pos hc]
    exact h
  · by_cases hp : s.points < POINTS_PER_GENERATION
    · rw [sendMessage, if_neg hc, if_pos hp]
      exact h
    · cases oc with
      | success rt ft af =>
        rw [sendMessage, if_neg hc, if_neg hp]
        exact le_max_left 0 _
      | failure em rm =>
        rw [sendMessage, if_neg hc, if_neg hp]
        exact h
      | thrown =>
        rw [sendMessage, if_neg hc, if_neg hp]
        exact h

/-- Every action of the core preserves a non-negative balance. -/
theorem step_points_nonneg (s : AppState) (a : AppAction) (h : 0 ≤ s.points) :
    0 ≤ (step s a).points := by
  cases a with
  | typeInput v => exact h
  | submit env oc => exact sendMessage_points_nonneg s env oc h
  | buy plan =>
    show 0 ≤ s.points + planPoints plan
    cases plan <;> simp [planPoints] <;> omega
  | newWork sid => exact h

/-- Non-negativity of the balance is preserved along any action trace. -/
theorem steps_points_nonneg (acts : List AppAction) : ∀ s : AppState, 0 ≤ s.points →
    0 ≤ (acts.foldl step s).points := by
  induction acts with
  | nil => intro s h; exact h
  | cons a rest ih => intro s h; exact ih (step s a) (step_points_nonneg s a h)

/-- Digit characters decode back to their values. -/
theorem charDigitVal_digitChar (d : Nat) (hd : d < 10) : charDigitVal (digitChar d) = d := by
  interval_cases d <;> decide

/-- Parsing the persisted decimal representation of a non-negative balance
recovers it exactly. -/
theorem parsePointsChars_roundtrip (p : Int) (hp : 0 ≤ p) :
    parsePointsChars (pointsToChars p) = p := by
  rw [pointsToChars]
  by_cases h0 : p.toNat = 0
  · rw [if_pos h0]
    have : p = 0 := by omega
    subst this
    decide
  · rw [if_neg h0, parsePointsChars, List.map_reverse, List.reverse_reverse, List.map_map]
    have hmap : (Nat.digits 10 p.toNat).map (charDigitVal ∘ digitChar) = Nat.digits 10 p.toNat := by
      have := List.map_congr_left (l := Nat.digits 10 p.toNat)
        (f := charDigitVal ∘ digitChar) (g := id) ?_
      · simpa using this
      · intro d hd
        exact charDigitVal_digitChar d (Nat.digits_lt_base (by norm_num) hd)
    rw [hmap, Nat.ofDigits_digits]
    exact Int.toNat_of_nonneg hp

/-- C5: the ledger balance is a non-negative integer at all times — it
starts at 250, every writer (the floored debit on success, the purchase
credit, the other actions) preserves non-negativity along any trace, and
rehydrating a persisted non-negative balance yields it back unchanged,
hence non-negative. -/
theorem balance_nonneg_invariant :
    (∀ uid sid : String,
        (initState uid sid).points = INITIAL_POINTS ∧ 0 ≤ (initState uid sid).points) ∧
    (∀ (s : AppState) (a : AppAction), 0 ≤ s.points → 0 ≤ (step s a).points) ∧
    (∀ (uid sid : String) (acts : List AppAction),
        0 ≤ (acts.foldl step (initState uid sid)).points) ∧
    (∀ (s0 base : AppState) (fu fs : String), 0 ≤ s0.points →
        (loadState (persistState s0) base fu fs).points = s0.points ∧
        0 ≤ (loadState (persistState s0) base fu fs).points) := by
  refine ⟨fun uid sid => ⟨rfl, by norm_num [initState, INITIAL_POINTS]⟩,
    step_points_nonneg, ?_, ?_⟩
  · intro uid sid acts
    exact steps_points_nonneg acts (initState uid sid) (by norm_num [initState, INITIAL_POINTS])
  · intro s0 base fu fs h
    have hpts : (loadState (persistState s0) base fu fs).points = s0.points := by
      show parsePointsChars (pointsToChars s0.points) = s0.points
      exact parsePointsChars_roundtrip s0.points h
    exact ⟨hpts, by rw [hpts]; exact h⟩

/-- Witness for C5 at a concrete state, action and stored balance. -/
theorem balance_nonneg_invariant_witness :
    0 ≤ testState.points ∧
    0 ≤ (step testState (AppAction.buy PurchasePlan.basico)).points ∧
    (loadState (persistState testState) (initState "b" "b") "f" "g").points =
      testState.points :=
  ⟨by decide,
   balance_nonneg_invariant.2.1 testState (AppAction.buy PurchasePlan.basico) (by decide),
   (balance_nonneg_invariant.2.2.2 testState (initState "b" "b") "f" "g" (by decide)).1⟩

/-- Role tags decode back to the role they encode. -/
theorem roleFromJson_roleToJson (r : Role) : roleFromJson (roleToJson r) = some r := by
  cases r <;> rfl

/-- Artifact descriptors survive the serialization roundtrip. -/
theorem artifactFromJson_artifactToJson (a : ArtifactFile) :
    artifactFromJson (artifactToJson a) = some a := rfl

/-- Mapping a left-inverse decoder over an encoded list succeeds and
recovers the list (accumulator form of `List.mapM`). -/
theorem mapM_loop_map_eq {α β : Type} (f : β → Option α) (g : α → β)
    (hv : ∀ x : α, f (g x) = some x) :
    ∀ (l acc : List α), List.mapM.loop f (l.map g) acc = some (acc.reverse ++ l) := by
  intro l
  induction l with
  | nil => intro acc; simp [List.mapM.loop]
  | cons x xs ih =>
    intro acc
    simp [List.mapM.loop, hv, ih]

/-- Mapping a left-inverse decoder over an encoded list recovers it. -/
theorem mapM_map_eq_some {α β : Type} (f : β → Option α) (g : α → β)
    (hv : ∀ x : α, f (g x) = some x) (l : List α) : (l.map g).mapM f = some l := by
  simpa using mapM_loop_map_eq f g hv l []

/-- Chat messages survive the serialization roundtrip, including the
omitted-key treatment of the optional artifact list. -/
theorem messageFromJson_messageToJson (m : ChatMessage) :
    messageFromJson (messageToJson m) = some m := by
  cases m with
  | mk id role content timestamp artifactFiles =>
    cases artifactFiles with
    | none =>
      cases role <;> rfl
    | some files =>
      simp only [messageToJson, messageFromJson, jsonLookup]
      simp [roleFromJson_roleToJson,
        mapM_loop_map_eq artifactFromJson artifactToJson artifactFromJson_artifactToJson,
        jsonStr]

/-- History entries survive the serialization roundtrip. -/
theorem entryFromJson_entryToJson (e : HistoryEntry) :
    entryFromJson (entryToJson e) = some e := by
  cases e with
  | mk id topic level format pageCount content date pointCost messages =>
    simp only [entryToJson, entryFromJson, jsonLookup]
    simp [mapM_loop_map_eq messageFromJson messageToJson messageFromJson_messageToJson,
      jsonStr, jsonNum]

/-- The whole archive survives the serialization roundtrip. -/
theorem historyFromJson_historyToJson (h : List HistoryEntry) :
    historyFromJson (historyToJson h) = some h := by
  rw [historyToJson, historyFromJson]
  exact mapM_map_eq_some entryFromJson entryToJson entryFromJson_entryToJson h

/-- C9: persisting the state (balance as a decimal string, archive as
serialized structured data, the ids verbatim) and rehydrating through the
startup path reproduces an equal balance, an archive with identical
entries in the same order, and the same userId (and sessionId).  The two
non-emptiness hypotheses are reachable-state invariants: every id the
program ever stores comes from `generateId`, whose result always carries
at least the `Date.now().toString(36)` suffix, so a falsy stored id never
arises from a persisted program state. -/
theorem persist_rehydrate_roundtrip (s base : AppState) (fu fs : String)
    (h : 0 ≤ s.points) (hu : s.userId ≠ "") (hs : s.sessionId ≠ "") :
    (loadState (persistState s) base fu fs).points = s.points ∧
    (loadState (persistState s) base fu fs).history = s.history ∧
    (loadState (persistState s) base fu fs).userId = s.userId ∧
    (loadState (persistState s) base fu fs).sessionId = s.sessionId := by
  refine ⟨parsePointsChars_roundtrip s.points h, ?_, ?_, ?_⟩
  · show (match historyFromJson (historyToJson s.history) with
          | some entries => entries
          | none => base.history) = s.history
    rw [historyFromJson_historyToJson]
  · show (if s.userId = "" then fu else s.userId) = s.userId
    exact if_neg hu
  · show (if s.sessionId = "" then fs else s.sessionId) = s.sessionId
    exact if_neg hs

/-- Witness for C9 at a concrete state carrying a non-trivial archive. -/
theorem persist_rehydrate_roundtrip_witness :
    0 ≤ ({ testState with history := testArchive }).points ∧
    ({ testState with history := testArchive }).userId ≠ "" ∧
    ({ testState with history := testArchive }).sessionId ≠ "" ∧
    ((loadState (persistState { testState with history := testArchive })
        (initState "b" "b") "f" "g").points =
      ({ testState with history := testArchive }).points ∧
     (loadState (persistState { testState with history := testArchive })
        (initState "b" "b") "f" "g").history =
      ({ testState with history := testArchive }).history ∧
     (loadState (persistState { testState with history := testArchive })
        (initState "b" "b") "f" "g").userId =
      ({ testState with history := testArchive }).userId ∧
     (loadState (persistState { testState with history := testArchive })
        (initState "b" "b") "f" "g").sessionId =
      ({ testState with history := testArchive }).sessionId) :=
  ⟨by decide, by decide, by decide,
   persist_rehydrate_roundtrip { testState with history := testArchive }
     (initState "b" "b") "f" "g" (by decide) (by decide) (by decide)⟩

/-- A first user message found in a prefix is still the first user message
of the extended list. -/
theorem firstUserMessage_append_of_some (l1 l2 : List ChatMessage) (m : ChatMessage)
    (h : firstUserMessage l1 = some m) : firstUserMessage (l1 ++ l2) = some m := by
  rw [firstUserMessage] at h ⊢
  rw [List.find?_append, h]
  rfl

/-- With no user message in the prefix, the first user message of the
extended list comes from the suffix. -/
theorem firstUserMessage_append_of_none (l1 l2 : List ChatMessage)
    (h : firstUserMessage l1 = none) :
    firstUserMessage (l1 ++ l2) = firstUserMessage l2 := by
  rw [firstUserMessage] at h ⊢
  rw [List.find?_append, h]
  rfl

/-- C7: on every successful generation the new history entry's topic is
the content of the session's first user message — truncated to its first
80 characters plus an ellipsis when longer than 80, verbatim otherwise —
and any later successful turn in the same session yields an entry with
that same topic, so later user turns never change it.  The hypothesis
`hclean` records the session invariant that user messages hold non-empty
(trimmed) content, which every reachable session state satisfies because
the submit gate rejects empty input. -/
theorem history_topic_from_first_user_message (s : AppState) (env : GenEnv)
    (rt ft : Option String) (af : Option (List ArtifactFile))
    (h1 : jsTrim s.inputValue ≠ "") (h2 : s.isGenerating = false)
    (h3 : POINTS_PER_GENERATION ≤ s.points)
    (hclean : ∀ m ∈ s.messages, m.role = Role.user → m.content ≠ "") :
    ∃ m : ChatMessage,
      firstUserMessage ((sendMessage s env (CallOutcome.success rt ft af)).1.messages) =
        some m ∧
      ((sendMessage s env (CallOutcome.success rt ft af)).1.history.head?).map
          HistoryEntry.topic =
        some (if 80 < m.content.length then String.mk (m.content.toList.take 80) ++ "..."
              else m.content) ∧
      (∀ (v : String) (env2 : GenEnv) (rt2 ft2 : Option String)
          (af2 : Option (List ArtifactFile)), jsTrim v ≠ "" →
        POINTS_PER_GENERATION ≤ (sendMessage s env (CallOutcome.success rt ft af)).1.points →
        ((sendMessage (setInput (sendMessage s env (CallOutcome.success rt ft af)).1 v) env2
            (CallOutcome.success rt2 ft2 af2)).1.history.head?).map HistoryEntry.topic =
          some (if 80 < m.content.length then String.mk (m.content.toList.take 80) ++ "..."
                else m.content)) := by
  have hstep := sendMessage_success_eq s env rt ft af h1 h2 h3
  have hmsgs : (sendMessage s env (CallOutcome.success rt ft af)).1.messages =
      (s.messages ++ [mkUserMessage env (jsTrim s.inputValue)]) ++
        [mkAssistantMessage env (extractedResponseText rt ft) (af.getD [])] := by
    rw [hstep]
  obtain ⟨m, hmfind, hmc, hmne⟩ :
      ∃ m : ChatMessage,
        firstUserMessage ((s.messages ++ [mkUserMessage env (jsTrim s.inputValue)]) ++
          [mkAssistantMessage env (extractedResponseText rt ft) (af.getD [])]) = some m ∧
        topicSource s.messages (jsTrim s.inputValue) = m.content ∧ m.content ≠ "" := by
    cases hfu : firstUserMessage s.messages with
    | some m0 =>
      have hfind : List.find? (fun mm => decide (mm.role = Role.user)) s.messages = some m0 :=
        hfu
      have hm0u : m0.role = Role.user := by
        have hpa := List.find?_some hfind
        simpa using hpa
      have hm0ne : m0.content ≠ "" := hclean m0 (List.mem_of_find?_eq_some hfind) hm0u
      refine ⟨m0, ?_, ?_, hm0ne⟩
      · exact firstUserMessage_append_of_some _ _ _
          (firstUserMessage_append_of_some _ _ _ hfu)
      · rw [topicSource, hfu]
        simp [jsOrString, hm0ne]
    | none =>
      refine ⟨mkUserMessage env (jsTrim s.inputValue), ?_, ?_, h1⟩
      · apply firstUserMessage_append_of_some
        rw [firstUserMessage_append_of_none _ _ hfu]
        rfl
      · rw [topicSource, hfu]
        rfl
  refine ⟨m, by rw [hmsgs]; exact hmfind, ?_, ?_⟩
  · have hh : (sendMessage s env (CallOutcome.success rt ft af)).1.history.head? =
        some (mkHistoryEntry env s.messages (jsTrim s.inputValue)
          (extractedResponseText rt ft) (mkUserMessage env (jsTrim s.inputValue))
          (mkAssistantMessage env (extractedResponseText rt ft) (af.getD []))) := by
      rw [hstep]
      rfl
    rw [hh]
    show some (truncateTopic (topicSource s.messages (jsTrim s.inputValue))) = _
    rw [hmc, truncateTopic]
  · intro v env2 rt2 ft2 af2 hv hpts
    have hgen' : (sendMessage s env (CallOutcome.success rt ft af)).1.isGenerating = false := by
      rw [hstep]
    have hstep2 := sendMessage_success_eq
      (setInput (sendMessage s env (CallOutcome.success rt ft af)).1 v) env2 rt2 ft2 af2
      hv hgen' hpts
    have hh2 : (sendMessage (setInput (sendMessage s env (CallOutcome.success rt ft af)).1 v)
        env2 (CallOutcome.success rt2 ft2 af2)).1.history.head? =
        some (mkHistoryEntry env2
          (setInput (sendMessage s env (CallOutcome.success rt ft af)).1 v).messages
          (jsTrim v) (extractedResponseText rt2 ft2) (mkUserMessage env2 (jsTrim v))
          (mkAssistantMessage env2 (extractedResponseText rt2 ft2) (af2.getD []))) := by
      rw [hstep2]
      rfl
    rw [hh2]
    have hts2 : topicSource
        (setInput (sendMessage s env (CallOutcome.success rt ft af)).1 v).messages
        (jsTrim v) = m.content := by
      show topicSource (sendMessage s env (CallOutcome.success rt ft af)).1.messages
        (jsTrim v) = m.content
      rw [topicSource, hmsgs, hmfind]
      simp [jsOrString, hmne]
    show some (truncateTopic (topicSource
      (setInput (sendMessage s env (CallOutcome.success rt ft af)).1 v).messages
      (jsTrim v))) = _
    rw [hts2, truncateTopic]

/-- Witness for C7 at a concrete fresh-session state. -/
theorem history_topic_from_first_user_message_witness :
    ∃ m : ChatMessage,
      firstUserMessage ((sendMessage testState testEnv
          (CallOutcome.success (some "texto") none none)).1.messages) = some m ∧
      ((sendMessage testState testEnv
          (CallOutcome.success (some "texto") none none)).1.history.head?).map
          HistoryEntry.topic =
        some (if 80 < m.content.length then String.mk (m.content.toList.take 80) ++ "..."
              else m.content) ∧
      (∀ (v : String) (env2 : GenEnv) (rt2 ft2 : Option String)
          (af2 : Option (List ArtifactFile)), jsTrim v ≠ "" →
        POINTS_PER_GENERATION ≤ (sendMessage testState testEnv
          (CallOutcome.success (some "texto") none none)).1.points →
        ((sendMessage (setInput (sendMessage testState testEnv
            (CallOutcome.success (some "texto") none none)).1 v) env2
            (CallOutcome.success rt2 ft2 af2)).1.history.head?).map HistoryEntry.topic =
          some (if 80 < m.content.length then String.mk (m.content.toList.take 80) ++ "..."
                else m.content)) :=
  history_topic_from_first_user_message testState testEnv (some "texto") none none
    (by decide) rfl (by decide) (fun m hm => absurd hm (List.not_mem_nil m))
